import Mathlib

/-!
Shallow embedding of the Trivia backend (`src/backend/flaskr/__init__.py`).

The external store (SQLAlchemy over SQLite) is modelled as an in-memory
`Store` holding the `Question` and `Category` rows.  Each Flask view
function becomes a Lean function from the store (and the decoded request
data) to a `HandlerResult`; mutating handlers also return the resulting
store.  `abort(n)` inside a handler corresponds to `HandlerResult.err n`
(the registered error handler for `n` then produces status `n` with the
fixed body), and an unhandled Python exception corresponds to
`HandlerResult.crash` (Flask then answers with HTTP 500).
-/

namespace Trivia

/-- `QUESTIONS_PER_PAGE = 10` from the source. -/
def QUESTIONS_PER_PAGE : Nat := 10

/-- A `Question` row: `{id, question, answer, category, difficulty}` (§3 of
the spec).  The `category` column is stored as a string (the spec notes the
string-vs-integer inconsistency in §9). -/
structure Question where
  id : Nat
  question : String
  answer : String
  category : String
  difficulty : Nat
deriving DecidableEq

/-- The JSON object produced by `Question.format()`. -/
structure FormattedQuestion where
  id : Nat
  question : String
  answer : String
  category : String
  difficulty : Nat
deriving DecidableEq

/-- Modelled from the spec: `Question.format` is defined in `models.py`,
which is not under `src/`; per §3 a formatted question exposes exactly the
fields `id`, `question`, `answer`, `category`, `difficulty` of the row. -/
def Question.format (q : Question) : FormattedQuestion :=
  { id := q.id, question := q.question, answer := q.answer,
    category := q.category, difficulty := q.difficulty }

/-- A `Category` row: `{id, type}` (§3). -/
structure Category where
  id : Nat
  type : String
deriving DecidableEq

/-- The external store: the two tables, each kept in insertion (= id) order
as the unqualified `Question.query.all()` returns them. -/
structure Store where
  questions : List Question
  categories : List Category
deriving DecidableEq

/-- Outcome of one handler invocation.  `ok` is a 200 response carrying the
JSON body (its `success: true` field is implicit in the constructor),
`err n` is `abort(n)` answered by the registered error handler for `n`, and
`crash` is an unhandled Python exception, answered by Flask with HTTP 500. -/
inductive HandlerResult (α : Type) where
  | ok (body : α)
  | err (code : Nat)
  | crash
deriving DecidableEq

/-- HTTP status of a handler outcome. -/
def HandlerResult.status : HandlerResult α → Nat
  | .ok _ => 200
  | .err code => code
  | .crash => 500

/-- The fixed message of each registered error handler (§4.9). -/
def errorMessage (code : Nat) : String :=
  if code = 400 then "bad request"
  else if code = 404 then "resource not found"
  else "unprocessable"

/-- Normalise one Python slice index: negative indices count from the end,
and both ends clamp into `[0, n]`. -/
def pyIndex (n : Nat) (i : Int) : Nat :=
  if i < 0 then (n + i).toNat else min i.toNat n

/-- Python list slicing `xs[a:b]` (half-open, clamped, negatives from the
end). -/
def pySlice (xs : List α) (a b : Int) : List α :=
  (xs.take (pyIndex xs.length b)).drop (pyIndex xs.length a)

/-- `paginate_questions(request, selection)`: `page` is the already-decoded
`page` query parameter (`request.args.get("page", 1, type=int)`, so absent
or non-numeric means `1`, but any integer, including a negative one, comes
through); the function formats the whole selection and takes the Python
slice `[(page-1)*10 : (page-1)*10+10]`. -/
def paginate_questions (page : Int) (selection : List Question) :
    List FormattedQuestion :=
  let start : Int := (page - 1) * QUESTIONS_PER_PAGE
  let stop : Int := start + QUESTIONS_PER_PAGE
  let questions := selection.map Question.format
  pySlice questions start stop

/-- The `categories_dict` built by the handlers: an id → type mapping,
represented as the association list the loop produces (ids are unique
primary keys). -/
def categoriesDict (categories : List Category) : List (Nat × String) :=
  categories.map (fun c => (c.id, c.type))

/-- Body of a successful `GET /categories`. -/
structure CategoriesResponse where
  categories : List (Nat × String)
deriving DecidableEq

/-- `retrieve_categories` (`GET /categories`): builds the dict, aborts 404
when the category table is empty. -/
def retrieve_categories (db : Store) : HandlerResult CategoriesResponse :=
  let categories := db.categories
  let categories_dict := categoriesDict categories
  if categories.length = 0 then .err 404
  else .ok { categories := categories_dict }

/-- Body of a successful `GET /questions`. -/
structure QuestionsResponse where
  questions : List FormattedQuestion
  total_questions : Nat
  categories : List (Nat × String)
deriving DecidableEq

/-- `retrieve_questions` (`GET /questions`): fetch all questions, paginate,
fetch all categories, abort 404 when the page is empty, otherwise answer
with the page, the unsliced total count and the categories dict. -/
def retrieve_questions (db : Store) (page : Int) :
    HandlerResult QuestionsResponse :=
  let selection := db.questions
  let current_questions := paginate_questions page selection
  let categories_dict := categoriesDict db.categories
  if current_questions.length = 0 then .err 404
  else
    .ok { questions := current_questions,
          total_questions := selection.length,
          categories := categories_dict }

/-- Body of a successful `DELETE /questions/{id}`. -/
structure DeleteResponse where
  deleted : Nat
  questions : List FormattedQuestion
  total_questions : Nat
deriving DecidableEq

/-- The `try:` body of `delete_question`: look the row up with
`one_or_none()`, `abort(404)` (an exception!) when absent, otherwise delete
it, re-fetch and re-paginate.  `Except.error n` is an exception escaping the
body — for this pure model the only one is the `abort(404)` itself. -/
def delete_question_try (db : Store) (question_id : Nat) (page : Int) :
    Except Nat (DeleteResponse × Store) :=
  match db.questions.find? (fun q => q.id = question_id) with
  | none => .error 404
  | some _ =>
    let db2 : Store :=
      { db with questions := db.questions.filter (fun q => q.id ≠ question_id) }
    let selection := db2.questions
    let current_questions := paginate_questions page selection
    .ok ({ deleted := question_id, questions := current_questions,
           total_questions := selection.length }, db2)

/-- `delete_question` (`DELETE /questions/{id}`): the whole body sits in a
bare `try/except` whose handler does `abort(422)`; the `abort(404)` raised
for a missing id is therefore caught and turned into a 422. -/
def delete_question (db : Store) (question_id : Nat) (page : Int) :
    HandlerResult DeleteResponse × Store :=
  match delete_question_try db question_id page with
  | .ok (resp, db2) => (.ok resp, db2)
  | .error _ => (.err 422, db)

/-- Decoded JSON body of `POST /questions`; each field is `body.get(key, None)`. -/
structure CreateBody where
  question : Option String
  answer : Option String
  category : Option String
  difficulty : Option Nat
  search : Option String
deriving DecidableEq

/-- Python truthiness of an optional string (`if search:`): absent (`None`)
and the empty string are falsy. -/
def pyTruthy : Option String → Bool
  | none => false
  | some s => s ≠ ""

/-- Does `hay` start with `needle`? -/
def charsStartWith : List Char → List Char → Bool
  | [], _ => true
  | _ :: _, [] => false
  | a :: as, b :: bs => a = b && charsStartWith as bs

/-- Does `hay` contain `needle` as a contiguous run? -/
def charsContain (needle : List Char) : List Char → Bool
  | [] => charsStartWith needle []
  | b :: bs => charsStartWith needle (b :: bs) || charsContain needle bs

/-- `Question.question.ilike("%term%")`: case-insensitive substring match of
the term against the question text. -/
def ilikeMatch (term : String) (text_ : String) : Bool :=
  charsContain (term.data.map Char.toLower) (text_.data.map Char.toLower)

/-- Modelled from the spec: `Question.insert` is defined in `models.py`,
which is not under `src/`; the store assigns the new row a fresh integer
primary key (§3: identity = id), modelled as one past the largest id. -/
def freshId (qs : List Question) : Nat :=
  (qs.map Question.id).foldr max 0 + 1

/-- Body of a successful `POST /questions` (`created` is absent on the
search branch). -/
structure CreateResponse where
  created : Option Nat
  questions : List FormattedQuestion
  total_questions : Nat
deriving DecidableEq

/-- `create_question` (`POST /questions`): a truthy `search` field selects
the search branch, which paginates the case-insensitive substring matches
and reports `len(Question.query.all())` — the global count — as
`total_questions`.  Otherwise all four of `question`, `answer`, `category`,
`difficulty` must be non-null (`abort(422)` if not, caught by the bare
`except` and re-raised as 422), and the new row is inserted, the list
re-fetched ordered by id and paginated. -/
def create_question (db : Store) (body : CreateBody) (page : Int) :
    HandlerResult CreateResponse × Store :=
  if pyTruthy body.search then
    let term := body.search.getD ""
    let selection := db.questions.filter (fun q => ilikeMatch term q.question)
    let current_questions := paginate_questions page selection
    (.ok { created := none, questions := current_questions,
           total_questions := db.questions.length }, db)
  else
    match body.question, body.answer, body.category, body.difficulty with
    | some q, some a, some c, some d =>
      let newQ : Question :=
        { id := freshId db.questions, question := q, answer := a,
          category := c, difficulty := d }
      let db2 : Store := { db with questions := db.questions ++ [newQ] }
      let selection := db2.questions.mergeSort (fun x y => x.id ≤ y.id)
      let current_questions := paginate_questions page selection
      (.ok { created := some newQ.id, questions := current_questions,
             total_questions := selection.length }, db2)
    | _, _, _, _ => (.err 422, db)

/-- Body of a successful `POST /questions/search`. -/
structure SearchResponse where
  questions : List FormattedQuestion
  total_questions : Nat
deriving DecidableEq

/-- `search_questions` (`POST /questions/search`): with a truthy
`searchTerm` it paginates the case-insensitive matches and reports the match
count; with a falsy one the local `selection` is never bound, the resulting
`UnboundLocalError` is caught by the bare `except` and mapped to
`abort(404)`. -/
def search_questions (db : Store) (searchTerm : Option String) (page : Int) :
    HandlerResult SearchResponse :=
  if pyTruthy searchTerm then
    let term := searchTerm.getD ""
    let selection := db.questions.filter (fun q => ilikeMatch term q.question)
    let paginated := paginate_questions page selection
    .ok { questions := paginated, total_questions := selection.length }
  else .err 404

/-- Body of a successful `GET /categories/{id}/questions`. -/
structure CategoryQuestionsResponse where
  questions : List FormattedQuestion
  total_questions : Nat
  current_category : Nat
deriving DecidableEq

/-- `retrieve_questions_by_category`: filters on
`Question.category == str(category_id)` (the category column holds strings)
and returns all matches unpaginated.  Nothing in the pure model can raise,
so the `except: abort(400)` branch is unreachable here. -/
def retrieve_questions_by_category (db : Store) (category_id : Nat) :
    HandlerResult CategoryQuestionsResponse :=
  let questions := db.questions.filter (fun q => q.category = toString category_id)
  .ok { questions := questions.map Question.format,
        total_questions := questions.length,
        current_category := category_id }

/-- A decoded JSON value as it can appear inside `previous_questions`.  The
frontend sends question ids (integers, §3: "previous_questions: set of
question id"), but Python's `in` compares whatever the list holds against
the formatted-question dict, so the element type keeps both shapes with
Python's equality: a dict never equals an int. -/
inductive PyValue where
  | int (n : Int)
  | dict (q : FormattedQuestion)
deriving DecidableEq

/-- `quiz_category`: an object with an `id` (`id == 0` means all
categories). -/
structure QuizCategory where
  id : Nat
deriving DecidableEq

/-- Decoded JSON body of `POST /quizzes`. -/
structure QuizBody where
  previous_questions : Option (List PyValue)
  quiz_category : Option QuizCategory
deriving DecidableEq

/-- Body of a successful `POST /quizzes`: the `question` field is present on
the normal return and absent on the pool-exhausted return. -/
structure QuizResponse where
  question : Option FormattedQuestion
deriving DecidableEq

/-- `if_used(new_question)`: `new_question in previous_questions`, where
`new_question` is the formatted-question dict produced by
`random_question()`.  Membership uses Python `==`: a dict equals no int. -/
def if_used (new_question : FormattedQuestion) (previous_questions : List PyValue) :
    Bool :=
  previous_questions.contains (PyValue.dict new_question)

/-- `random.choice(quiz).format()`, driven by one value of the randomness
oracle: an empty pool raises `IndexError` (`none`), otherwise the draw picks
the element at `i % quiz.length` — every element is reachable, matching a
uniform choice. -/
def random_question (quiz : List Question) (i : Nat) : Option FormattedQuestion :=
  match quiz with
  | [] => none
  | _ :: _ => (quiz.get? (i % quiz.length)).map Question.format

/-- The `while if_used(new_question):` loop of `play_quiz`, consuming one
oracle value per iteration.  Inside the body the code first draws again,
then returns the bare success if `len(previous_questions) == len(quiz)`,
else goes back to the loop condition.  `none` means the model ran out of
oracle values while the (unbounded) loop was still running. -/
def play_quiz_loop (previous_questions : List PyValue) (quiz : List Question) :
    FormattedQuestion → List Nat → Option (HandlerResult QuizResponse)
  | new_question, draws =>
    if if_used new_question previous_questions then
      match draws with
      | [] => none
      | i :: rest =>
        match random_question quiz i with
        | none => some .crash
        | some next =>
          if previous_questions.length = quiz.length then
            some (.ok { question := none })
          else
            play_quiz_loop previous_questions quiz next rest
    else
      some (.ok { question := some new_question })

/-- The candidate pool of `play_quiz`: all questions for category id 0,
else `filter_by(category=category['id'])` — SQLite's TEXT affinity turns
the comparison of the string column with the integer id into a comparison
with its decimal rendering. -/
def quizPool (db : Store) (category : QuizCategory) : List Question :=
  if category.id = 0 then db.questions
  else db.questions.filter (fun q => q.category = toString category.id)

/-- `play_quiz` (`POST /quizzes`): aborts 422 when either body field is
null; builds the candidate pool; draws a first question —
`random.choice` on an empty pool raises `IndexError`, which no `try`
catches, so Flask answers 500 (`crash`) — and then enters the retry
loop. -/
def play_quiz (db : Store) (body : QuizBody) (draws : List Nat) :
    Option (HandlerResult QuizResponse) :=
  match body.quiz_category, body.previous_questions with
  | none, _ => some (.err 422)
  | some _, none => some (.err 422)
  | some category, some previous_questions =>
    match draws with
    | [] => none
    | i :: rest =>
      match random_question (quizPool db category) i with
      | none => some .crash
      | some new_question =>
        play_quiz_loop previous_questions (quizPool db category) new_question rest

/-! ### Concrete rows used to instantiate the theorems -/

/-- A minimal question row with id `n`. -/
def sampleQ (n : Nat) : Question :=
  { id := n, question := "q", answer := "a", category := "1", difficulty := 1 }

/-- A store with no rows at all. -/
def emptyStore : Store := { questions := [], categories := [] }

/-! ### Pagination lemmas -/

/-- A Python slice `xs[s : s+k]` with a non-negative start is the clamped
half-open window: drop `s`, take `k`. -/
theorem pySlice_ofNat (xs : List α) (s k : Nat) :
    pySlice xs (s : Int) ((s : Int) + (k : Int)) = (xs.drop s).take k := by
  unfold pySlice pyIndex
  rw [if_neg (by omega), if_neg (by omega)]
  have h3 : ((s : Int) + (k : Int)).toNat = s + k := by omega
  have h4 : ((s : Int)).toNat = s := by omega
  rw [h3, h4, List.drop_take]
  rcases le_or_lt s xs.length with hs | hs
  · rw [min_eq_left hs, List.take_eq_take]
    simp only [List.length_drop]
    omega
  · rw [min_eq_right (le_of_lt hs), min_eq_right (by omega), Nat.sub_self,
      List.take_zero, List.drop_eq_nil_of_le (le_of_lt hs), List.take_nil]

/-- For a page number `≥ 1`, `paginate_questions` is the clamped half-open
window of width 10 starting at `(page-1)*10` over the formatted list. -/
theorem paginate_pos (page : Int) (selection : List Question) (hp : 1 ≤ page) :
    paginate_questions page selection =
      ((selection.map Question.format).drop ((page - 1) * 10).toNat).take 10 := by
  have h0 : 0 ≤ (page - 1) * 10 := mul_nonneg (by omega) (by norm_num)
  have key := pySlice_ofNat (selection.map Question.format) ((page - 1) * 10).toNat 10
  rw [Int.toNat_of_nonneg h0] at key
  unfold paginate_questions QUESTIONS_PER_PAGE
  simpa using key

/-- Claim C6: for every page number `p ≥ 1` and every fetched list of `N`
questions, the page returned equals the 0-based half-open slice
`[(p-1)*10 : (p-1)*10+10]` of the formatted list and has length
`min(10, max(0, N-(p-1)*10))`. -/
theorem paginate_slice_spec (page : Int) (selection : List Question) (hp : 1 ≤ page) :
    paginate_questions page selection =
      ((selection.map Question.format).drop ((page - 1) * 10).toNat).take 10 ∧
    ((paginate_questions page selection).length : Int) =
      min 10 (max 0 ((selection.length : Int) - (page - 1) * 10)) := by
  refine ⟨paginate_pos page selection hp, ?_⟩
  rw [paginate_pos page selection hp, List.length_take, List.length_drop,
    List.length_map]
  have h0 : 0 ≤ (page - 1) * 10 := mul_nonneg (by omega) (by norm_num)
  omega

/-- Witness for C6 at `page = 1` with a two-question store. -/
theorem paginate_slice_spec_witness :
    (1 : Int) ≤ 1 ∧
    (paginate_questions 1 [sampleQ 1, sampleQ 2] =
      (([sampleQ 1, sampleQ 2].map Question.format).drop (((1 : Int) - 1) * 10).toNat).take 10 ∧
    ((paginate_questions 1 [sampleQ 1, sampleQ 2]).length : Int) =
      min 10 (max 0 ((([sampleQ 1, sampleQ 2] : List Question).length : Int) - ((1 : Int) - 1) * 10))) :=
  ⟨le_refl 1, paginate_slice_spec 1 [sampleQ 1, sampleQ 2] (le_refl 1)⟩

/-- Claim C5 counterexample: the page number `-1` is out of range (it is
less than 1), yet on a 15-question selection the code returns 5 questions —
Python's negative-index slicing maps `[-20:-10]` to `[0:5]` — so the result
is not the empty sequence the claim promises. -/
theorem paginate_negative_page_nonempty :
    (-1 : Int) < 1 ∧
    (paginate_questions (-1) ((List.range 15).map sampleQ)).length = 5 ∧
    paginate_questions (-1) ((List.range 15).map sampleQ) ≠ [] := by
  refine ⟨by norm_num, rfl, ?_⟩
  intro h
  exact absurd (congrArg List.length h) (by decide)

/-- Claim C5 (amended): for every non-negative page number that is out of
range — `p = 0`, or `p ≥ 1` pointing past the data — pagination returns the
empty sequence (and, being a total function, never raises); for negative
`p`, Python's negative-index slicing applies and the result can be
non-empty. -/
theorem paginate_out_of_range_nonneg_empty (page : Int) (selection : List Question)
    (hp : 0 ≤ page)
    (hout : page = 0 ∨ (selection.length : Int) ≤ (page - 1) * 10) :
    paginate_questions page selection = [] := by
  rcases eq_or_lt_of_le hp with h0 | hpos
  · rw [← h0]
    unfold paginate_questions pySlice pyIndex QUESTIONS_PER_PAGE
    norm_num
  · have hp1 : 1 ≤ page := hpos
    rcases hout with h | h
    · omega
    · rw [paginate_pos page selection hp1]
      have hlen : (selection.map Question.format).length ≤ ((page - 1) * 10).toNat := by
        rw [List.length_map]; omega
      rw [List.drop_eq_nil_of_le hlen, List.take_nil]

/-- Witness for C5 (amended) at `page = 2` over a one-question selection. -/
theorem paginate_out_of_range_nonneg_empty_witness :
    (0 : Int) ≤ 2 ∧
    ((([sampleQ 1] : List Question).length : Int) ≤ ((2 : Int) - 1) * 10) ∧
    paginate_questions 2 [sampleQ 1] = [] :=
  ⟨by norm_num, by norm_num,
    paginate_out_of_range_nonneg_empty 2 [sampleQ 1] (by norm_num)
      (Or.inr (by norm_num))⟩

/-! ### GET /questions -/

/-- Claim C7: `GET /questions` fails with 404 exactly when the computed page
is empty (which covers both a page number beyond the data and an empty
question table); otherwise it returns the page, the unsliced total question
count and the categories mapping. -/
theorem retrieve_questions_spec (db : Store) (page : Int) :
    (paginate_questions page db.questions = [] →
      retrieve_questions db page = .err 404) ∧
    (paginate_questions page db.questions ≠ [] →
      retrieve_questions db page =
        .ok { questions := paginate_questions page db.questions,
              total_questions := db.questions.length,
              categories := categoriesDict db.categories }) := by
  constructor
  · intro h
    simp [retrieve_questions, h]
  · intro h
    rw [retrieve_questions, if_neg]
    simpa [List.length_eq_zero] using h

/-- Witness for C7: both branches at concrete stores — an empty store
yields 404 on page 1, and a one-question store yields the success body. -/
theorem retrieve_questions_spec_witness :
    (paginate_questions 1 emptyStore.questions = [] ∧
      retrieve_questions emptyStore 1 = .err 404) ∧
    (paginate_questions 1 [sampleQ 1] ≠ [] ∧
      retrieve_questions { questions := [sampleQ 1], categories := [] } 1 =
        .ok { questions := paginate_questions 1 [sampleQ 1],
              total_questions := ([sampleQ 1] : List Question).length,
              categories := categoriesDict [] }) :=
  ⟨⟨rfl, (retrieve_questions_spec emptyStore 1).1 rfl⟩,
   ⟨by decide, (retrieve_questions_spec { questions := [sampleQ 1], categories := [] } 1).2 (by decide)⟩⟩

/-! ### POST /questions -/

/-- Claim C8: without a truthy `search` field, a null/missing value among
`question`, `answer`, `category`, `difficulty` makes `POST /questions`
answer 422 and leaves the store unchanged. -/
theorem create_question_missing_field_422 (db : Store) (body : CreateBody)
    (page : Int) (hsearch : pyTruthy body.search = false)
    (hmissing : body.question = none ∨ body.answer = none ∨
      body.category = none ∨ body.difficulty = none) :
    create_question db body page = (.err 422, db) := by
  obtain ⟨q, a, c, d, s⟩ := body
  rcases q <;> rcases a <;> rcases c <;> rcases d <;>
    simp_all [create_question]

/-- Witness for C8: a body with only `answer` missing (no search field). -/
theorem create_question_missing_field_422_witness :
    pyTruthy (none : Option String) = false ∧
    create_question emptyStore
      { question := some "what", answer := none, category := some "1",
        difficulty := some 1, search := none } 1 = (.err 422, emptyStore) :=
  ⟨rfl, create_question_missing_field_422 emptyStore
    { question := some "what", answer := none, category := some "1",
      difficulty := some 1, search := none } 1 rfl (Or.inr (Or.inl rfl))⟩

/-- Claim C9: with a truthy `search` field, `POST /questions` answers with
the paginated case-insensitive substring matches, while `total_questions`
is the global question count of the store (`len(Question.query.all())`),
not the number of matches. -/
theorem create_question_search_branch (db : Store) (body : CreateBody)
    (page : Int) (hsearch : pyTruthy body.search = true) :
    create_question db body page =
      (.ok { created := none,
             questions := paginate_questions page
               (db.questions.filter
                 (fun q => ilikeMatch (body.search.getD "") q.question)),
             total_questions := db.questions.length }, db) := by
  rw [create_question, if_pos hsearch]

/-- A question row whose text mentions hydrogen. -/
def scienceQ : Question :=
  { id := 1, question := "What is hydrogen", answer := "an element",
    category := "1", difficulty := 2 }

/-- A question row whose text does not mention hydrogen. -/
def artQ : Question :=
  { id := 2, question := "Who painted the starry night", answer := "a painter",
    category := "2", difficulty := 3 }

/-- The two-question store used to instantiate the search claim. -/
def searchStore : Store := { questions := [scienceQ, artQ], categories := [] }

/-- The search body used to instantiate the search claim. -/
def searchBody : CreateBody :=
  { question := none, answer := none, category := none, difficulty := none,
    search := some "HYDROGEN" }

/-- Witness for C9: searching `"HYDROGEN"` in a two-question store matches
one question, yet `total_questions` is the global count 2. -/
theorem create_question_search_branch_witness :
    pyTruthy searchBody.search = true ∧
    create_question searchStore searchBody 1 =
      (.ok { created := none,
             questions := paginate_questions 1
               (searchStore.questions.filter
                 (fun q => ilikeMatch (searchBody.search.getD "") q.question)),
             total_questions := searchStore.questions.length }, searchStore) ∧
    (searchStore.questions.filter
      (fun q => ilikeMatch (searchBody.search.getD "") q.question)).length ≠
      searchStore.questions.length :=
  ⟨rfl, create_question_search_branch searchStore searchBody 1 rfl, by decide⟩

/-! ### Empty category table -/

/-- Claim C10: with zero categories in the store, `GET /questions` still
succeeds whenever its question page is non-empty — the categories mapping
is just empty — while `GET /categories` fails with 404. -/
theorem retrieve_questions_empty_categories (db : Store) (page : Int)
    (hcat : db.categories = [])
    (hpage : paginate_questions page db.questions ≠ []) :
    retrieve_questions db page =
      .ok { questions := paginate_questions page db.questions,
            total_questions := db.questions.length,
            categories := [] } ∧
    retrieve_categories db = .err 404 := by
  constructor
  · rw [retrieve_questions, if_neg]
    · simp [categoriesDict, hcat]
    · simpa [List.length_eq_zero] using hpage
  · simp [retrieve_categories, hcat]

/-- Witness for C10: one question, zero categories, page 1. -/
theorem retrieve_questions_empty_categories_witness :
    paginate_questions 1 [sampleQ 1] ≠ [] ∧
    (retrieve_questions { questions := [sampleQ 1], categories := [] } 1 =
      .ok { questions := paginate_questions 1 [sampleQ 1],
            total_questions := ([sampleQ 1] : List Question).length,
            categories := [] } ∧
    retrieve_categories { questions := [sampleQ 1], categories := [] } = .err 404) :=
  ⟨by decide,
    retrieve_questions_empty_categories
      { questions := [sampleQ 1], categories := [] } 1 rfl (by decide)⟩

/-! ### POST /quizzes -/

/-- Claim C1 (code bug): with the pool `[question 1, question 2]`, the seen
list `previous_questions = [1]` and a draw landing on question 1, the
handler returns question 1 even though its id is in `previous_questions`
and the pool (2 questions) is not exhausted (1 seen).  `if_used` compares
the formatted-question dict against a list of integer ids, so it is never
true and the retry loop never skips anything. -/
theorem play_quiz_returns_seen_question :
    play_quiz { questions := [sampleQ 1, sampleQ 2], categories := [] }
        { previous_questions := some [.int 1], quiz_category := some { id := 0 } }
        [0]
      = some (.ok { question := some (Question.format (sampleQ 1)) }) ∧
    PyValue.int ((Question.format (sampleQ 1)).id : Int) ∈ ([.int 1] : List PyValue) ∧
    ([PyValue.int 1] : List PyValue).length ≠
      ([sampleQ 1, sampleQ 2] : List Question).length :=
  ⟨rfl, by decide, by decide⟩

/-- Claim C3 (code bug): with the pool `[question 1]` and
`previous_questions = [1]` — the seen list covers the whole pool — the
handler still returns a response carrying a `question` field (question 1
again) instead of the bare success: the exhaustion return sits inside the
retry loop, which is never entered because `if_used` compares a dict
against integer ids. -/
theorem play_quiz_exhausted_still_returns_question :
    play_quiz { questions := [sampleQ 1], categories := [] }
        { previous_questions := some [.int 1], quiz_category := some { id := 0 } }
        [0]
      = some (.ok { question := some (Question.format (sampleQ 1)) }) ∧
    ([PyValue.int 1] : List PyValue).length =
      ([sampleQ 1] : List Question).length ∧
    some (Question.format (sampleQ 1)) ≠ (none : Option FormattedQuestion) :=
  ⟨rfl, rfl, by decide⟩

/-- Claim C2 (code bug): deleting an id absent from the store answers 422,
not the 404 the claim states — the `abort(404)` raised inside the handler's
bare `try/except` is itself an exception, so the `except` arm turns it into
`abort(422)`.  The store is left unchanged, as claimed. -/
theorem delete_missing_id_gives_422 :
    delete_question { questions := [sampleQ 1], categories := [] } 5 1
      = (.err 422, { questions := [sampleQ 1], categories := [] }) ∧
    (HandlerResult.err 422 : HandlerResult DeleteResponse).status ≠ 404 :=
  ⟨rfl, by decide⟩

/-- The status codes the spec allows, plus the 500 that an unhandled
exception produces. -/
def allowedStatuses : List Nat := [200, 400, 404, 422, 500]

/-- Every outcome of the quiz retry loop has a status in
`allowedStatuses`. -/
theorem play_quiz_loop_status (prev : List PyValue) (quiz : List Question)
    (cur : FormattedQuestion) (draws : List Nat) (r : HandlerResult QuizResponse)
    (h : play_quiz_loop prev quiz cur draws = some r) :
    r.status ∈ allowedStatuses := by
  induction draws generalizing cur with
  | nil =>
    rw [play_quiz_loop] at h
    split at h
    · exact absurd h (by simp)
    · cases h
      simp [HandlerResult.status, allowedStatuses]
  | cons i rest ih =>
    rw [play_quiz_loop] at h
    split at h
    · split at h
      · cases h
        simp [HandlerResult.status, allowedStatuses]
      · split at h
        · cases h
          simp [HandlerResult.status, allowedStatuses]
        · exact ih _ h
    · cases h
      simp [HandlerResult.status, allowedStatuses]

/-- Claim C4 (amended): every outcome of the seven handlers has a status
among 200, 400, 404, 422 **and 500** — the last because an unhandled
exception (such as `random.choice` on an empty quiz pool) escapes the three
registered error handlers and is answered by Flask with HTTP 500. -/
theorem handler_status_set
    (db : Store) (page : Int) (question_id : Nat) (body : CreateBody)
    (searchTerm : Option String) (category_id : Nat) (qbody : QuizBody)
    (draws : List Nat) (r : HandlerResult QuizResponse) :
    (retrieve_categories db).status ∈ allowedStatuses ∧
    (retrieve_questions db page).status ∈ allowedStatuses ∧
    ((delete_question db question_id page).1).status ∈ allowedStatuses ∧
    ((create_question db body page).1).status ∈ allowedStatuses ∧
    (search_questions db searchTerm page).status ∈ allowedStatuses ∧
    (retrieve_questions_by_category db category_id).status ∈ allowedStatuses ∧
    (play_quiz db qbody draws = some r → r.status ∈ allowedStatuses) := by
  refine ⟨?_, ?_, ?_, ?_, ?_, ?_, ?_⟩
  · rw [retrieve_categories]
    split <;> simp [HandlerResult.status, allowedStatuses]
  · rw [retrieve_questions]
    split <;> simp [HandlerResult.status, allowedStatuses]
  · rw [delete_question]
    split <;> simp [HandlerResult.status, allowedStatuses]
  · rw [create_question]
    split
    · simp [HandlerResult.status, allowedStatuses]
    · split <;> simp [HandlerResult.status, allowedStatuses]
  · rw [search_questions]
    split <;> simp [HandlerResult.status, allowedStatuses]
  · rw [retrieve_questions_by_category]
    simp [HandlerResult.status, allowedStatuses]
  · intro h
    rw [play_quiz] at h
    split at h
    · cases h; simp [HandlerResult.status, allowedStatuses]
    · cases h; simp [HandlerResult.status, allowedStatuses]
    · split at h
      · exact absurd h (by simp)
      · split at h
        · cases h; simp [HandlerResult.status, allowedStatuses]
        · exact play_quiz_loop_status _ _ _ _ r h

/-- The `POST /quizzes` body whose pool is empty. -/
def quizCrashBody : QuizBody :=
  { previous_questions := some [], quiz_category := some { id := 0 } }

/-- The all-null `POST /questions` body. -/
def emptyCreateBody : CreateBody :=
  { question := none, answer := none, category := none, difficulty := none,
    search := none }

/-- Witness for C4 (amended) at concrete requests against the empty store;
the quiz conjunct is instantiated at the crashing request. -/
theorem handler_status_set_witness :
    (retrieve_categories emptyStore).status ∈ allowedStatuses ∧
    (retrieve_questions emptyStore 1).status ∈ allowedStatuses ∧
    ((delete_question emptyStore 5 1).1).status ∈ allowedStatuses ∧
    ((create_question emptyStore emptyCreateBody 1).1).status ∈ allowedStatuses ∧
    (search_questions emptyStore none 1).status ∈ allowedStatuses ∧
    (retrieve_questions_by_category emptyStore 1).status ∈ allowedStatuses ∧
    (HandlerResult.crash : HandlerResult QuizResponse).status ∈ allowedStatuses := by
  have h := handler_status_set emptyStore 1 5 emptyCreateBody none 1
    quizCrashBody [0] .crash
  exact ⟨h.1, h.2.1, h.2.2.1, h.2.2.2.1, h.2.2.2.2.1, h.2.2.2.2.2.1,
    h.2.2.2.2.2.2 rfl⟩

/-- Claim C4 counterexample: `POST /quizzes` against an empty question
store, with both body fields present, crashes on `random.choice([])` and is
answered with HTTP 500 — a status outside the claimed set
`{200, 400, 404, 422}`. -/
theorem play_quiz_empty_pool_crash :
    (play_quiz emptyStore
        { previous_questions := some [], quiz_category := some { id := 0 } }
        [0]).map HandlerResult.status = some 500 ∧
    (500 : Nat) ∉ ([200, 400, 404, 422] : List Nat) :=
  ⟨rfl, by decide⟩

end Trivia
